import Mathlib

/-!
# Verification of the pollen-feed client core

Shallow embedding of `src/js/pollen-feed.js` (the PollenSense gauge page):
the date/time formatter, the localStorage cache, the data fetcher
`getDataByCategory`, and the per-category latest-valid series selection
performed by `displayGaugesForCategories`.

JavaScript numbers appearing in the data (PPM readings, Misery indices) are
modelled as rationals `ℚ`; `null` entries of a series are `Option.none`;
epoch-millisecond timestamps are `Int`.
-/

namespace PollenFeed

/-- One entry of the API response's `Categories` array: `CategoryCode`,
`CategoryDescription`, the `PPM3` sequence (numbers or nulls) and the
optional `Misery` sequence. -/
structure CategorySeries where
  CategoryCode : String
  CategoryDescription : String
  PPM3 : List (Option ℚ)
  Misery : Option (List (Option ℚ))
deriving Repr, DecidableEq

/-- The parsed JSON body of the API response: a `Moments` array of ISO8601
strings and a `Categories` array. -/
structure ApiResponse where
  Moments : List String
  Categories : List CategorySeries
deriving Repr, DecidableEq

/-- The payload cached in localStorage under `pollenData` (built at
`pollen-feed.js:110-115`): `moments` plus the per-requested-code projected
`categories`, where a code with no matching entry is `none` (JS
`undefined` from `Array.prototype.find`). -/
structure CachedResponse where
  moments : List String
  categories : List (Option CategorySeries)
deriving Repr, DecidableEq

/-- The localStorage state read at `pollen-feed.js:82-83`: the
`lastRequestTime` item (epoch millis, absent before any fetch) and the
`pollenData` item. -/
structure CacheState where
  lastRequestTime : Option Int
  pollenData : Option CachedResponse
deriving Repr, DecidableEq

/-- `pollen-feed.js:86`: `const oneHourInMilliseconds = 60 * 60 * 1000`. -/
def oneHourInMilliseconds : Int := 60 * 60 * 1000

/-- The cache-freshness test of `pollen-feed.js:89`:
`currentTime - lastRequestTime < oneHourInMilliseconds`. -/
def isFresh (lastRequestTime currentTime : Int) : Bool :=
  currentTime - lastRequestTime < oneHourInMilliseconds

/-- `getFormattedDateUTC` (`pollen-feed.js:34-38`): append `T00:00:00Z`
(or `T23:59:59Z` when `isEndOfDay`) to the date string. -/
def getFormattedDateUTC (dateString : String) (isEndOfDay : Bool) : String :=
  let timePart := if isEndOfDay then "23:59:59" else "00:00:00"
  dateString ++ "T" ++ timePart ++ "Z"

/-- The environment clock as the page sees it: `new Date()` provides both a
UTC calendar date (via `toISOString().split('T')[0]`, which the code uses)
and a local calendar date (which it does not). -/
structure Clock where
  utcDate : String
  localDate : String
deriving Repr, DecidableEq

/-- The date-defaulting step of `getDataByCategory`
(`pollen-feed.js:62,67-70`): JS `if (!urlDate)` replaces only an absent
(`null`) or empty-string parameter with `new Date().toISOString()`'s UTC
date; any other string — malformed or not — is used verbatim. -/
def resolveUrlDate (dateParam : Option String) (clock : Clock) : String :=
  match dateParam with
  | none => clock.utcDate
  | some s => if s = "" then clock.utcDate else s

/-- The projection of `pollen-feed.js:112-114`:
`categoryCodes.map(code => data.Categories.find(c => c.CategoryCode === code))`. -/
def projectCategories (categoryCodes : List String) (data : ApiResponse) :
    List (Option CategorySeries) :=
  categoryCodes.map fun code =>
    data.Categories.find? fun category => category.CategoryCode == code

/-- The cache write of `pollen-feed.js:118-119`: both localStorage items are
overwritten with the new payload and the current time. -/
def writeCache (responseData : CachedResponse) (currentTime : Int)
    (_st : CacheState) : CacheState :=
  { lastRequestTime := some currentTime, pollenData := some responseData }

/-- Result of one run of `getDataByCategory`: the returned payload, the
localStorage state afterwards, and whether the live-fetch branch ran
(issued the HTTP request). -/
structure FetchOutcome where
  result : CachedResponse
  state : CacheState
  fetchedLive : Bool
deriving Repr, DecidableEq

/-- The cache-miss branch of `getDataByCategory` (`pollen-feed.js:92-122`):
project the API response by the requested codes, store payload and
timestamp, return the payload. -/
def liveFetch (categoryCodes : List String) (st : CacheState)
    (currentTime : Int) (data : ApiResponse) : FetchOutcome :=
  let responseData : CachedResponse :=
    { moments := data.Moments
      categories := projectCategories categoryCodes data }
  { result := responseData
    state := writeCache responseData currentTime st
    fetchedLive := true }

/-- `getDataByCategory` (`pollen-feed.js:61-123`) with its environment made
explicit: the localStorage state, the current time and the API response the
network would deliver. `pollen-feed.js:89`: if `!noCache` and both
localStorage items are present and `currentTime - lastRequestTime` is under
one hour, return the stored payload; otherwise fetch live. -/
def getDataByCategory (categoryCodes : List String) (noCache : Bool)
    (st : CacheState) (currentTime : Int) (data : ApiResponse) :
    FetchOutcome :=
  match st.lastRequestTime, st.pollenData with
  | some lastRequestTime, some storedPollenData =>
    if !noCache && isFresh lastRequestTime currentTime then
      { result := storedPollenData, state := st, fetchedLive := false }
    else
      liveFetch categoryCodes st currentTime data
  | _, _ => liveFetch categoryCodes st currentTime data

/-- The backward scan of `displayGaugesForCategories`
(`pollen-feed.js:142-147`): start at `PPM3.length - 1` and decrement while
the entry is `null`. `latestValidAux ppm n` is the loop with the next index
to examine being `n - 1`; `none` is the loop ending at `-1`. -/
def latestValidAux (ppm : List (Option ℚ)) : Nat → Option Nat
  | 0 => none
  | n + 1 =>
    match ppm.getD n none with
    | none => latestValidAux ppm n
    | some _ => some n

/-- The index selected by the backward scan, or `none` when the whole
series is null (the category is skipped, `pollen-feed.js:150-152`). -/
def latestValidIndex (ppm : List (Option ℚ)) : Option Nat :=
  latestValidAux ppm ppm.length

/-- The misery display computed at `pollen-feed.js:155`: either the string
`N/A` or a number formatted by `toFixed(2)`. -/
inductive MiseryDisplay where
  | NA : MiseryDisplay
  | value : ℚ → MiseryDisplay
deriving Repr, DecidableEq

/-- JS `Number.prototype.toFixed(2)` as a rational: round to the nearest
hundredth, ties towards the larger value. -/
def toFixed2 (x : ℚ) : ℚ := (⌊x * 100 + 1 / 2⌋ : ℚ) / 100

/-- `pollen-feed.js:155`:
`categoryData.Misery ? (categoryData.Misery[latestValidIndex] * 100).toFixed(2) : 'N/A'`.
Only the presence of the `Misery` array is tested; a `null` entry at the
selected index participates in the arithmetic, where JS coerces `null` to
`0`. -/
def miseryDisplay (misery : Option (List (Option ℚ))) (index : Nat) :
    MiseryDisplay :=
  match misery with
  | none => MiseryDisplay.NA
  | some ms => MiseryDisplay.value (toFixed2 ((ms.getD index none).getD 0 * 100))

/-- The per-gauge reading assembled at `pollen-feed.js:154-156`. -/
structure GaugeReading where
  ppm : ℚ
  misery : MiseryDisplay
  moment : String
deriving Repr, DecidableEq

/-- The per-category body of `displayGaugesForCategories`
(`pollen-feed.js:142-156`): `none` when the backward scan finds no valid
PPM (the category is skipped), otherwise the latest PPM, the misery display
and the aligned moment. -/
def gaugeReading (moments : List String) (categoryData : CategorySeries) :
    Option GaugeReading :=
  match latestValidIndex categoryData.PPM3 with
  | none => none
  | some i =>
    some { ppm := (categoryData.PPM3.getD i none).getD 0
           misery := miseryDisplay categoryData.Misery i
           moment := moments.getD i "" }

/-- The gauges actually drawn by `displayGaugesForCategories`
(`pollen-feed.js:138-139,150-152`): absent categories and all-null series
are skipped. -/
def renderedGauges (moments : List String)
    (categoriesData : List (Option CategorySeries)) : List GaugeReading :=
  categoriesData.filterMap fun categoryData =>
    categoryData.bind (gaugeReading moments)

/-- The `POL` series of §8's projection example: the API response contains a
matching `POL` entry and no `XYZ` entry. -/
def examplePolSeries : CategorySeries :=
  { CategoryCode := "POL", CategoryDescription := "Pollen",
    PPM3 := [some 1], Misery := none }

/-- The API response of §8's projection example. -/
def exampleResponse : ApiResponse :=
  { Moments := ["m0"], Categories := [examplePolSeries] }

/-- Whether a string has the `YYYY-MM-DD` shape the page's URL contract
expects (`src/unnamed/part_000`): ten characters, digits with dashes at
positions 4 and 7. -/
def isValidDateFormat (s : String) : Bool :=
  match s.data with
  | [y1, y2, y3, y4, c1, m1, m2, c2, d1, d2] =>
    y1.isDigit && y2.isDigit && y3.isDigit && y4.isDigit && c1 == '-'
      && m1.isDigit && m2.isDigit && c2 == '-' && d1.isDigit && d2.isDigit
  | _ => false

/-- Numeric value of a decimal digit character. -/
def digitVal (c : Char) : Nat := c.toNat - 48

/-- Chronological key of a `YYYY-MM-DDThh:mm:ssZ` string, the request
timestamp format produced by `getFormattedDateUTC`: `none` unless the
string has exactly that shape, otherwise a number that grows with the
calendar date and, within one date, with the second of day. -/
def utcTimestampKey (s : String) : Option Nat :=
  match s.data with
  | [y1, y2, y3, y4, c1, mo1, mo2, c2, d1, d2, t, h1, h2, c3, mi1, mi2, c4, s1, s2, z] =>
    if y1.isDigit && y2.isDigit && y3.isDigit && y4.isDigit
        && c1 == '-' && mo1.isDigit && mo2.isDigit && c2 == '-'
        && d1.isDigit && d2.isDigit && t == 'T'
        && h1.isDigit && h2.isDigit && c3 == ':'
        && mi1.isDigit && mi2.isDigit && c4 == ':'
        && s1.isDigit && s2.isDigit && z == 'Z' then
      some (((((digitVal y1 * 10 + digitVal y2) * 10 + digitVal y3) * 10 + digitVal y4) * 10000
            + (digitVal mo1 * 10 + digitVal mo2) * 100 + (digitVal d1 * 10 + digitVal d2)) * 100000
          + ((digitVal h1 * 10 + digitVal h2) * 3600 + (digitVal mi1 * 10 + digitVal mi2) * 60
            + (digitVal s1 * 10 + digitVal s2)))
    else none
  | _ => none

theorem latestValidAux_eq_some_iff (ppm : List (Option ℚ)) :
    ∀ n i, latestValidAux ppm n = some i ↔
      (i < n ∧ ppm.getD i none ≠ none ∧
        ∀ j, i < j → j < n → ppm.getD j none = none) := by
  intro n
  induction n with
  | zero => intro i; simp [latestValidAux]
  | succ n ih =>
    intro i
    cases h : ppm.getD n none with
    | none =>
      simp only [latestValidAux, h]
      rw [ih i]
      constructor
      · rintro ⟨hi, hne, hall⟩
        refine ⟨Nat.lt_succ_of_lt hi, hne, ?_⟩
        intro j hij hjn
        rcases Nat.lt_succ_iff_lt_or_eq.mp hjn with hj | rfl
        · exact hall j hij hj
        · exact h
      · rintro ⟨hi, hne, hall⟩
        have hin : i ≠ n := by rintro rfl; exact hne h
        have hi' : i < n := by omega
        exact ⟨hi', hne, fun j hij hjn => hall j hij (Nat.lt_succ_of_lt hjn)⟩
    | some v =>
      simp only [latestValidAux, h]
      constructor
      · rintro heq
        obtain rfl : n = i := Option.some.inj heq
        refine ⟨Nat.lt_succ_self n, ?_, ?_⟩
        · rw [h]; simp
        · intro j hij hjn
          omega
      · rintro ⟨hi, hne, hall⟩
        have hieq : i = n := by
          by_contra hin
          have hi' : i < n := by omega
          have hnull := hall n hi' (Nat.lt_succ_self n)
          rw [h] at hnull
          exact absurd hnull (by simp)
        rw [hieq]

theorem latestValidAux_eq_none_iff (ppm : List (Option ℚ)) :
    ∀ n, latestValidAux ppm n = none ↔ ∀ j, j < n → ppm.getD j none = none := by
  intro n
  induction n with
  | zero => simp [latestValidAux]
  | succ n ih =>
    cases h : ppm.getD n none with
    | none =>
      simp only [latestValidAux, h]
      rw [ih]
      constructor
      · intro hall j hjn
        rcases Nat.lt_succ_iff_lt_or_eq.mp hjn with hj | rfl
        · exact hall j hj
        · exact h
      · intro hall j hjn
        exact hall j (Nat.lt_succ_of_lt hjn)
    | some v =>
      simp only [latestValidAux, h]
      constructor
      · intro hfalse; exact absurd hfalse (by simp)
      · intro hall
        have := hall n (Nat.lt_succ_self n)
        rw [this] at h
        exact absurd h (by simp)

/-- C1: the latest-valid selection scans `PPM3` from the last index backward
and returns the first (largest) index holding a non-null PPM value, together
with that PPM value; on `[1.0, null, 2.0, null]` it returns index 2 with ppm
2.0, and on an all-null or empty series it returns absent and the category
is skipped (no gauge reading produced). -/
theorem latestValid_scan_correct :
    (∀ (ppm : List (Option ℚ)) (i : Nat),
        latestValidIndex ppm = some i ↔
          (i < ppm.length ∧ ppm.getD i none ≠ none ∧
            ∀ j, i < j → j < ppm.length → ppm.getD j none = none))
    ∧ (∀ ppm : List (Option ℚ),
        latestValidIndex ppm = none ↔ ∀ j, j < ppm.length → ppm.getD j none = none)
    ∧ latestValidIndex [some 1, none, some 2, none] = some 2
    ∧ gaugeReading ["m0", "m1", "m2", "m3"]
        { CategoryCode := "POL", CategoryDescription := "Pollen",
          PPM3 := [some 1, none, some 2, none], Misery := none } =
        some { ppm := 2, misery := MiseryDisplay.NA, moment := "m2" }
    ∧ latestValidIndex [none, none] = none
    ∧ latestValidIndex [] = none
    ∧ gaugeReading ["m0", "m1"]
        { CategoryCode := "POL", CategoryDescription := "Pollen",
          PPM3 := [none, none], Misery := none } = none := by
  refine ⟨fun ppm i => latestValidAux_eq_some_iff ppm ppm.length i,
    fun ppm => latestValidAux_eq_none_iff ppm ppm.length, ?_, ?_, ?_, ?_, ?_⟩
  · decide
  · norm_num [gaugeReading, latestValidIndex, latestValidAux, miseryDisplay]
  · decide
  · decide
  · norm_num [gaugeReading, latestValidIndex, latestValidAux]

theorem latestValid_scan_correct_witness :
    latestValidIndex [some 1, none, (some 2 : Option ℚ), none] = some 2 :=
  latestValid_scan_correct.2.2.1

/-- C4: with `now ≥ t0`, the freshness predicate holds exactly when
`now - t0` is under one hour (3,600,000 ms); the boundary `now = t0 + 1h`
is stale. -/
theorem isFresh_window (t0 now : Int) (h : t0 ≤ now) :
    (isFresh t0 now = true ↔ now < t0 + oneHourInMilliseconds)
    ∧ isFresh t0 (t0 + oneHourInMilliseconds) = false := by
  constructor
  · simp only [isFresh, oneHourInMilliseconds, decide_eq_true_eq]
    omega
  · simp only [isFresh, oneHourInMilliseconds, decide_eq_false_iff_not]
    omega

theorem isFresh_window_witness :
    ((0 : Int) ≤ 100 ∧
      ((isFresh 0 100 = true ↔ (100 : Int) < 0 + oneHourInMilliseconds)
        ∧ isFresh 0 (0 + oneHourInMilliseconds) = false)) :=
  ⟨by norm_num, isFresh_window 0 100 (by norm_num)⟩

/-- C5: with the `noCache` directive set, `getDataByCategory` takes the
live-fetch branch for every cache state: the HTTP request is issued and the
result is the fresh projection, never the cached payload. -/
theorem noCache_forces_live_fetch (categoryCodes : List String)
    (st : CacheState) (currentTime : Int) (data : ApiResponse) :
    (getDataByCategory categoryCodes true st currentTime data).fetchedLive = true
    ∧ (getDataByCategory categoryCodes true st currentTime data).result =
        { moments := data.Moments,
          categories := projectCategories categoryCodes data } := by
  rcases st with ⟨lrt, pd⟩
  cases lrt <;> cases pd <;> simp [getDataByCategory, liveFetch]

theorem find?_eq_some_iff_first {α : Type} (p : α → Bool) :
    ∀ (l : List α) (c : α),
      l.find? p = some c ↔
        ∃ i : Nat, l[i]? = some c ∧ p c = true ∧
          ∀ j : Nat, j < i → ∀ x : α, l[j]? = some x → p x = false := by
  intro l
  induction l with
  | nil => intro c; simp
  | cons a as ih =>
    intro c
    cases hp : p a with
    | true =>
      rw [List.find?_cons_of_pos _ hp]
      constructor
      · intro heq
        obtain rfl : a = c := by injection heq
        exact ⟨0, by simp, hp, fun j hj => by omega⟩
      · rintro ⟨i, hi, hpc, hfirst⟩
        cases i with
        | zero =>
          simp only [List.getElem?_cons_zero, Option.some.injEq] at hi
          rw [hi]
        | succ n =>
          have h0 := hfirst 0 (Nat.succ_pos n) a (by simp)
          rw [hp] at h0
          exact absurd h0 (by simp)
    | false =>
      rw [List.find?_cons_of_neg _ (by simp [hp])]
      rw [ih c]
      constructor
      · rintro ⟨i, hi, hpc, hfirst⟩
        refine ⟨i + 1, by simpa using hi, hpc, ?_⟩
        intro j hj x hx
        cases j with
        | zero =>
          simp only [List.getElem?_cons_zero, Option.some.injEq] at hx
          rw [← hx]
          exact hp
        | succ m =>
          exact hfirst m (by omega) x (by simpa using hx)
      · rintro ⟨i, hi, hpc, hfirst⟩
        cases i with
        | zero =>
          simp only [List.getElem?_cons_zero, Option.some.injEq] at hi
          rw [← hi] at hpc
          rw [hp] at hpc
          exact absurd hpc (by simp)
        | succ m =>
          refine ⟨m, by simpa using hi, hpc, ?_⟩
          intro j hj x hx
          exact hfirst (j + 1) (by omega) x (by simpa using hx)

/-- C3: on a cache hit (`noCache` false, entry present and fresh),
`getDataByCategory` returns the stored entry exactly as stored; the result
does not depend on the requested `categoryCodes` (nor on what the network
would have answered). -/
theorem cache_hit_ignores_categoryCodes (codes1 codes2 : List String)
    (t0 : Int) (stored : CachedResponse) (currentTime : Int)
    (data1 data2 : ApiResponse)
    (h : isFresh t0 currentTime = true) :
    (getDataByCategory codes1 false ⟨some t0, some stored⟩ currentTime data1).result
      = stored
    ∧ (getDataByCategory codes1 false ⟨some t0, some stored⟩ currentTime data1).result
      = (getDataByCategory codes2 false ⟨some t0, some stored⟩ currentTime data2).result := by
  simp [getDataByCategory, h]

theorem cache_hit_ignores_categoryCodes_witness :
    isFresh 0 10 = true
    ∧ ((getDataByCategory ["POL"] false ⟨some 0, some ⟨[], []⟩⟩ 10 ⟨[], []⟩).result
        = (⟨[], []⟩ : CachedResponse)
      ∧ (getDataByCategory ["POL"] false ⟨some 0, some ⟨[], []⟩⟩ 10 ⟨[], []⟩).result
        = (getDataByCategory ["POL", "GRA"] false ⟨some 0, some ⟨[], []⟩⟩ 10
            ⟨["x"], [examplePolSeries]⟩).result) :=
  ⟨by decide,
    cache_hit_ignores_categoryCodes ["POL"] ["POL", "GRA"] 0 ⟨[], []⟩ 10
      ⟨[], []⟩ ⟨["x"], [examplePolSeries]⟩ (by decide)⟩

/-- C7: writing a payload to the Cache Store and reading it back within the
freshness window is the identity: both localStorage items hold exactly what
was written, and the cache-hit read returns the written payload
(`moments` and `categories` unchanged). -/
theorem cache_roundtrip (st : CacheState) (payload : CachedResponse)
    (t0 currentTime : Int) (codes : List String) (data : ApiResponse)
    (h : isFresh t0 currentTime = true) :
    (writeCache payload t0 st).pollenData = some payload
    ∧ (writeCache payload t0 st).lastRequestTime = some t0
    ∧ (getDataByCategory codes false (writeCache payload t0 st) currentTime data).result
        = payload := by
  refine ⟨rfl, rfl, ?_⟩
  simp [getDataByCategory, writeCache, h]

theorem cache_roundtrip_witness :
    isFresh 5 10 = true
    ∧ ((writeCache ⟨["m0"], [some examplePolSeries]⟩ 5 ⟨none, none⟩).pollenData
        = some ⟨["m0"], [some examplePolSeries]⟩
      ∧ (writeCache ⟨["m0"], [some examplePolSeries]⟩ 5 ⟨none, none⟩).lastRequestTime
        = some 5
      ∧ (getDataByCategory ["POL"] false
          (writeCache ⟨["m0"], [some examplePolSeries]⟩ 5 ⟨none, none⟩) 10
          ⟨[], []⟩).result = ⟨["m0"], [some examplePolSeries]⟩) :=
  ⟨by decide,
    cache_roundtrip ⟨none, none⟩ ⟨["m0"], [some examplePolSeries]⟩ 5 10 ["POL"]
      ⟨[], []⟩ (by decide)⟩

/-- C10: on the cache-hit path `getDataByCategory` does not touch the Cache
Store: both localStorage items are left exactly as they were, so a hit never
extends the freshness window; and no live fetch happens. -/
theorem cache_hit_preserves_state (codes : List String) (t0 : Int)
    (stored : CachedResponse) (currentTime : Int) (data : ApiResponse)
    (h : isFresh t0 currentTime = true) :
    (getDataByCategory codes false ⟨some t0, some stored⟩ currentTime data).state
      = ⟨some t0, some stored⟩
    ∧ (getDataByCategory codes false ⟨some t0, some stored⟩ currentTime data).fetchedLive
      = false := by
  simp [getDataByCategory, h]

theorem cache_hit_preserves_state_witness :
    isFresh 0 10 = true
    ∧ ((getDataByCategory ["POL"] false ⟨some 0, some ⟨[], []⟩⟩ 10 ⟨["x"], []⟩).state
        = (⟨some 0, some ⟨[], []⟩⟩ : CacheState)
      ∧ (getDataByCategory ["POL"] false ⟨some 0, some ⟨[], []⟩⟩ 10 ⟨["x"], []⟩).fetchedLive
        = false) :=
  ⟨by decide,
    cache_hit_preserves_state ["POL"] 0 ⟨[], []⟩ 10 ⟨["x"], []⟩ (by decide)⟩

/-- C6: the projected `categories` list maps the requested codes, in order,
to the first entry of the response's `Categories` with that `CategoryCode`
(`none` when no entry matches); the result has the same length and order as
the request, and on `["POL","XYZ"]` against a response holding only a `POL`
entry it is `[some <POL series>, none]`, of which exactly one gauge is
drawn. -/
theorem projectCategories_spec :
    (∀ (codes : List String) (data : ApiResponse),
      (projectCategories codes data).length = codes.length)
    ∧ (∀ (codes : List String) (data : ApiResponse) (i : Nat),
      (projectCategories codes data)[i]? =
        (codes[i]?).map fun code =>
          data.Categories.find? fun category => category.CategoryCode == code)
    ∧ (∀ (code : String) (data : ApiResponse) (c : CategorySeries),
      (data.Categories.find? fun category => category.CategoryCode == code)
          = some c ↔
        ∃ i : Nat, data.Categories[i]? = some c ∧ c.CategoryCode = code ∧
          ∀ j : Nat, j < i → ∀ x : CategorySeries, data.Categories[j]? = some x →
            x.CategoryCode ≠ code)
    ∧ (∀ (code : String) (data : ApiResponse),
      (data.Categories.find? fun category => category.CategoryCode == code)
          = none ↔
        ∀ c ∈ data.Categories, c.CategoryCode ≠ code)
    ∧ projectCategories ["POL", "XYZ"] exampleResponse
        = [some examplePolSeries, none]
    ∧ (renderedGauges ["m0"] (projectCategories ["POL", "XYZ"] exampleResponse)).length
        = 1 := by
  refine ⟨?_, ?_, ?_, ?_, ?_, ?_⟩
  · intro codes data
    simp [projectCategories]
  · intro codes data i
    simp [projectCategories]
  · intro code data c
    rw [find?_eq_some_iff_first]
    constructor
    · rintro ⟨i, hi, hc, hfirst⟩
      exact ⟨i, hi, by simpa using hc,
        fun j hj x hx => by simpa using hfirst j hj x hx⟩
    · rintro ⟨i, hi, hc, hfirst⟩
      exact ⟨i, hi, by simpa using hc,
        fun j hj x hx => by simpa using hfirst j hj x hx⟩
  · intro code data
    rw [List.find?_eq_none]
    simp
  · decide
  · decide

theorem validDate_shape (D : String) (h : isValidDateFormat D = true) :
    ∃ y1 y2 y3 y4 m1 m2 d1 d2 : Char,
      D.data = [y1, y2, y3, y4, '-', m1, m2, '-', d1, d2]
      ∧ y1.isDigit = true ∧ y2.isDigit = true ∧ y3.isDigit = true
      ∧ y4.isDigit = true ∧ m1.isDigit = true ∧ m2.isDigit = true
      ∧ d1.isDigit = true ∧ d2.isDigit = true := by
  rcases D with ⟨l⟩
  rcases l with _ | ⟨y1, l⟩
  · exact absurd h (by simp [isValidDateFormat])
  rcases l with _ | ⟨y2, l⟩
  · exact absurd h (by simp [isValidDateFormat])
  rcases l with _ | ⟨y3, l⟩
  · exact absurd h (by simp [isValidDateFormat])
  rcases l with _ | ⟨y4, l⟩
  · exact absurd h (by simp [isValidDateFormat])
  rcases l with _ | ⟨c1, l⟩
  · exact absurd h (by simp [isValidDateFormat])
  rcases l with _ | ⟨m1, l⟩
  · exact absurd h (by simp [isValidDateFormat])
  rcases l with _ | ⟨m2, l⟩
  · exact absurd h (by simp [isValidDateFormat])
  rcases l with _ | ⟨c2, l⟩
  · exact absurd h (by simp [isValidDateFormat])
  rcases l with _ | ⟨d1, l⟩
  · exact absurd h (by simp [isValidDateFormat])
  rcases l with _ | ⟨d2, l⟩
  · exact absurd h (by simp [isValidDateFormat])
  rcases l with _ | ⟨e, rest⟩
  · simp only [isValidDateFormat, Bool.and_eq_true, beq_iff_eq] at h
    obtain ⟨⟨⟨⟨⟨⟨⟨⟨⟨hy1, hy2⟩, hy3⟩, hy4⟩, hc1⟩, hm1⟩, hm2⟩, hc2⟩, hd1⟩, hd2⟩ := h
    subst hc1
    subst hc2
    exact ⟨y1, y2, y3, y4, m1, m2, d1, d2, rfl,
      hy1, hy2, hy3, hy4, hm1, hm2, hd1, hd2⟩
  · exact absurd h (by simp [isValidDateFormat])

theorem utcTimestampKey_eval
    (y1 y2 y3 y4 mo1 mo2 d1 d2 h1 h2 mi1 mi2 s1 s2 : Char)
    (hy1 : y1.isDigit = true) (hy2 : y2.isDigit = true)
    (hy3 : y3.isDigit = true) (hy4 : y4.isDigit = true)
    (hmo1 : mo1.isDigit = true) (hmo2 : mo2.isDigit = true)
    (hd1 : d1.isDigit = true) (hd2 : d2.isDigit = true)
    (hh1 : h1.isDigit = true) (hh2 : h2.isDigit = true)
    (hmi1 : mi1.isDigit = true) (hmi2 : mi2.isDigit = true)
    (hs1 : s1.isDigit = true) (hs2 : s2.isDigit = true) :
    utcTimestampKey ⟨[y1, y2, y3, y4, '-', mo1, mo2, '-', d1, d2, 'T',
        h1, h2, ':', mi1, mi2, ':', s1, s2, 'Z']⟩
      = some (((((digitVal y1 * 10 + digitVal y2) * 10 + digitVal y3) * 10
              + digitVal y4) * 10000
            + (digitVal mo1 * 10 + digitVal mo2) * 100
            + (digitVal d1 * 10 + digitVal d2)) * 100000
          + ((digitVal h1 * 10 + digitVal h2) * 3600
            + (digitVal mi1 * 10 + digitVal mi2) * 60
            + (digitVal s1 * 10 + digitVal s2))) := by
  simp [utcTimestampKey, hy1, hy2, hy3, hy4, hmo1, hmo2, hd1, hd2,
    hh1, hh2, hmi1, hmi2, hs1, hs2]

/-- C2 counterexample: a series whose `Misery` sequence is present but null
at the selected index; the claim says the misery percent is the unavailable
marker, yet the code renders the numeric value `0.00` (JS coerces the null
to `0` before multiplying), not `N/A`. -/
theorem misery_null_at_index_counterexample :
    gaugeReading ["m0"]
      { CategoryCode := "POL", CategoryDescription := "Pollen",
        PPM3 := [some 1], Misery := some [none] } =
      some { ppm := 1, misery := MiseryDisplay.value 0, moment := "m0" }
    ∧ miseryDisplay (some [none]) 0 ≠ MiseryDisplay.NA := by
  constructor
  · norm_num [gaugeReading, latestValidIndex, latestValidAux, miseryDisplay,
      toFixed2]
  · intro hfalse
    exact MiseryDisplay.noConfusion hfalse

/-- C2 amended: the misery percent is the unavailable marker exactly when
the `Misery` sequence is absent; whenever the sequence is present the code
shows a number — `Misery[index] * 100` rounded to two decimals for a
present value, and `0` (from JS null-to-0 coercion) for a null value at the
selected index. -/
theorem miseryDisplay_spec (ms : List (Option ℚ)) (index : Nat) :
    miseryDisplay none index = MiseryDisplay.NA
    ∧ (∀ v : ℚ, ms.getD index none = some v →
        miseryDisplay (some ms) index = MiseryDisplay.value (toFixed2 (v * 100)))
    ∧ (ms.getD index none = none →
        miseryDisplay (some ms) index = MiseryDisplay.value 0)
    ∧ miseryDisplay (some ms) index ≠ MiseryDisplay.NA := by
  refine ⟨rfl, ?_, ?_, ?_⟩
  · intro v hv
    rw [List.getD_eq_getElem?_getD] at hv
    simp [miseryDisplay, List.getD_eq_getElem?_getD, hv]
  · intro hv
    rw [List.getD_eq_getElem?_getD] at hv
    norm_num [miseryDisplay, List.getD_eq_getElem?_getD, hv, toFixed2]
  · intro hfalse
    exact MiseryDisplay.noConfusion hfalse

theorem miseryDisplay_spec_witness :
    [some (1/2 : ℚ)].getD 0 none = some (1/2)
    ∧ miseryDisplay (some [some (1/2)]) 0 = MiseryDisplay.value (toFixed2 (1/2 * 100)) :=
  ⟨rfl, (miseryDisplay_spec [some (1/2)] 0).2.1 (1/2) rfl⟩

/-- C8: for every well-formed `YYYY-MM-DD` date string `D`, the request
window runs from `D` at `00:00:00` UTC to `D` at `23:59:59` UTC, and the
start timestamp is chronologically no later than the end timestamp. -/
theorem utc_window_spec (D : String) (h : isValidDateFormat D = true) :
    getFormattedDateUTC D false = D ++ "T00:00:00Z"
    ∧ getFormattedDateUTC D true = D ++ "T23:59:59Z"
    ∧ ∃ k : Nat,
        utcTimestampKey (getFormattedDateUTC D false) = some k
        ∧ utcTimestampKey (getFormattedDateUTC D true) = some (k + 86399)
        ∧ k ≤ k + 86399 := by
  obtain ⟨y1, y2, y3, y4, m1, m2, d1, d2, hdata,
    hy1, hy2, hy3, hy4, hm1, hm2, hd1, hd2⟩ := validDate_shape D h
  rcases D with ⟨l⟩
  have hl : l = [y1, y2, y3, y4, '-', m1, m2, '-', d1, d2] := hdata
  subst hl
  refine ⟨rfl, rfl, ?_⟩
  have d0 : digitVal '0' = 0 := rfl
  have d2c : digitVal '2' = 2 := rfl
  have d3 : digitVal '3' = 3 := rfl
  have d5 : digitVal '5' = 5 := rfl
  have d9 : digitVal '9' = 9 := rfl
  refine ⟨((((digitVal y1 * 10 + digitVal y2) * 10 + digitVal y3) * 10
        + digitVal y4) * 10000
      + (digitVal m1 * 10 + digitVal m2) * 100
      + (digitVal d1 * 10 + digitVal d2)) * 100000, ?_, ?_,
    Nat.le_add_right _ _⟩
  · have hk := utcTimestampKey_eval y1 y2 y3 y4 m1 m2 d1 d2
      '0' '0' '0' '0' '0' '0'
      hy1 hy2 hy3 hy4 hm1 hm2 hd1 hd2
      (by decide) (by decide) (by decide) (by decide) (by decide) (by decide)
    rw [show getFormattedDateUTC ⟨[y1, y2, y3, y4, '-', m1, m2, '-', d1, d2]⟩ false
        = (⟨[y1, y2, y3, y4, '-', m1, m2, '-', d1, d2, 'T', '0', '0', ':',
            '0', '0', ':', '0', '0', 'Z']⟩ : String) from rfl, hk]
    simp [d0]
  · have hk := utcTimestampKey_eval y1 y2 y3 y4 m1 m2 d1 d2
      '2' '3' '5' '9' '5' '9'
      hy1 hy2 hy3 hy4 hm1 hm2 hd1 hd2
      (by decide) (by decide) (by decide) (by decide) (by decide) (by decide)
    rw [show getFormattedDateUTC ⟨[y1, y2, y3, y4, '-', m1, m2, '-', d1, d2]⟩ true
        = (⟨[y1, y2, y3, y4, '-', m1, m2, '-', d1, d2, 'T', '2', '3', ':',
            '5', '9', ':', '5', '9', 'Z']⟩ : String) from rfl, hk]
    simp [d2c, d3, d5, d9]

theorem utc_window_spec_witness :
    isValidDateFormat "2024-09-12" = true
    ∧ (getFormattedDateUTC "2024-09-12" false = "2024-09-12" ++ "T00:00:00Z"
      ∧ getFormattedDateUTC "2024-09-12" true = "2024-09-12" ++ "T23:59:59Z"
      ∧ ∃ k : Nat,
          utcTimestampKey (getFormattedDateUTC "2024-09-12" false) = some k
          ∧ utcTimestampKey (getFormattedDateUTC "2024-09-12" true) = some (k + 86399)
          ∧ k ≤ k + 86399) :=
  ⟨by decide, utc_window_spec "2024-09-12" (by decide)⟩

/-- C9 counterexample: a malformed date parameter is not replaced by the
current date — the malformed string is used verbatim — and when the
parameter is absent the fallback is the current UTC calendar date from
`toISOString`, which can differ from the current local calendar date. -/
theorem resolveUrlDate_counterexample :
    isValidDateFormat "not-a-date" = false
    ∧ resolveUrlDate (some "not-a-date") ⟨"2024-09-13", "2024-09-12"⟩ = "not-a-date"
    ∧ resolveUrlDate (some "not-a-date") ⟨"2024-09-13", "2024-09-12"⟩
        ≠ (⟨"2024-09-13", "2024-09-12"⟩ : Clock).localDate
    ∧ resolveUrlDate (some "not-a-date") ⟨"2024-09-13", "2024-09-12"⟩
        ≠ (⟨"2024-09-13", "2024-09-12"⟩ : Clock).utcDate
    ∧ resolveUrlDate none ⟨"2024-09-13", "2024-09-12"⟩
        ≠ (⟨"2024-09-13", "2024-09-12"⟩ : Clock).localDate := by
  refine ⟨by decide, rfl, by decide, by decide, by decide⟩

/-- C9 amended: only an absent or empty date parameter falls back to the
current UTC calendar date taken from `toISOString`; any other string —
well-formed or malformed — is used verbatim as the requested date. -/
theorem resolveUrlDate_spec (clock : Clock) (s : String) :
    resolveUrlDate none clock = clock.utcDate
    ∧ resolveUrlDate (some "") clock = clock.utcDate
    ∧ (s ≠ "" → resolveUrlDate (some s) clock = s) := by
  refine ⟨rfl, rfl, ?_⟩
  intro hs
  simp [resolveUrlDate, hs]

theorem resolveUrlDate_spec_witness :
    resolveUrlDate (some "not-a-date") ⟨"2024-09-13", "2024-09-12"⟩ = "not-a-date" :=
  (resolveUrlDate_spec ⟨"2024-09-13", "2024-09-12"⟩ "not-a-date").2.2 (by decide)

end PollenFeed
